import Mathlib

/-!
Shallow embedding of the contacts-management backend (goit-pythonweb-hw-12):
the data model (src/database/models.py), the contact repository
(src/repository/contacts_repository.py), the user repository
(src/repository/users_repository.py), the contact service
(src/services/contacts_service.py) and the auth/contact API routes
(src/api/auth.py, src/api/contacts.py).

Dates are modelled as day counts (Nat), timestamps as second counts (Nat).
The async database session becomes explicit state passing over a `DB` value;
routes that may raise HTTPException return `Except ApiError`, paired with the
database state they leave behind.
-/

/-- Roles from models.UserRole (src/database/models.py). -/
inductive UserRole where
  | user
  | admin
deriving DecidableEq, Repr

/-- A persisted row of the users table (src/database/models.py, class User).
The `confirmed` column defaults to False and `role` is an enum column. -/
structure DBUser where
  id : Nat
  username : String
  email : String
  hashed_password : String
  confirmed : Bool
  role : UserRole
  avatar : Option String
deriving DecidableEq, Repr

/-- A persisted row of the contacts table (src/database/models.py, class
Contact): unique email and phone_number columns, an owning user_id foreign
key, and an updated_at stamp refreshed on mutation. -/
structure Contact where
  id : Nat
  first_name : String
  last_name : String
  email : String
  phone_number : String
  birth_date : Option Nat
  info : Option String
  user_id : Nat
  created_at : Nat
  updated_at : Nat
deriving DecidableEq, Repr

/-- The database state: the users and contacts tables. -/
structure DB where
  users : List DBUser
  contacts : List Contact
deriving DecidableEq, Repr

/-- Request body for creating a contact (src/schemas/contacts.py,
ContactModel): the four string fields are required, birth_date and info are
optional. -/
structure ContactModel where
  first_name : String
  last_name : String
  email : String
  phone_number : String
  birth_date : Option Nat
  info : Option String
deriving DecidableEq, Repr

/-- The dictionary body.dict(exclude_unset=True) seen by
ContactRepository.update_contact: each field is either absent from the
request (none) or present with a value; for the two optional columns the
present value may itself be null. -/
structure ContactUpdate where
  first_name : Option String
  last_name : Option String
  email : Option String
  phone_number : Option String
  birth_date : Option (Option Nat)
  info : Option (Option String)
deriving DecidableEq, Repr

/-- Request body for registration (src/schemas/users.py, UserCreate): the
client supplies username, email, password and role. -/
structure UserCreate where
  username : String
  email : String
  password : String
  role : UserRole
deriving DecidableEq, Repr

/-- The HTTPException detail kinds raised by the API layer
(src/api/auth.py, src/api/contacts.py, src/services/contacts_service.py). -/
inductive ApiError where
  | duplicateEmail
  | duplicateUsername
  | invalidCredentials
  | notConfirmed
  | verificationError
  | emailNotConfirmed
  | invalidOrExpiredToken
  | userNotFound
  | contactNotFound
  | duplicateContact
deriving DecidableEq, Repr

/-- HTTP status code attached to each error kind in the source. -/
def ApiError.status : ApiError → Nat
  | .duplicateEmail => 409
  | .duplicateUsername => 409
  | .invalidCredentials => 401
  | .notConfirmed => 401
  | .verificationError => 400
  | .emailNotConfirmed => 400
  | .invalidOrExpiredToken => 400
  | .userNotFound => 404
  | .contactNotFound => 404
  | .duplicateContact => 400

/-- Message constants (src/conf/messages, referenced from src/api/auth.py). -/
def EMAIL_ALREADY_CONFIRMED : String := "Your email is already confirmed"

/-- Message returned after a successful email confirmation. -/
def EMAIL_CONFIRMED : String := "Email confirmed"

/-- Generic response of the resend / reset-request routes. -/
def CHECK_YOUR_EMAIL : String := "Check your email for further instructions"

/-- Message returned after a successful password reset confirmation. -/
def PASSWORD_CHANGED : String := "Password changed"

/-- Modelled from the spec: the Token Service (src/services/auth_service.py is
not part of src/; spec section 4.2). A token is a self-contained signed bundle
of claims: subject, optional auxiliary pending-password claim, issued-at and
expiry timestamps. `valid` models signature integrity: a tampered or malformed
token is one with valid = false. -/
structure Token where
  sub : Option String
  password : Option String
  iat : Nat
  exp : Nat
  valid : Bool
deriving DecidableEq, Repr

/-- Modelled from the spec: access tokens are short-lived (session-scoped).
Concrete value: one hour, in seconds. -/
def ACCESS_TOKEN_TTL : Nat := 3600

/-- Modelled from the spec: email-confirmation tokens are longer-lived
(hours-scale, to tolerate email delivery latency). Concrete value: seven
days, in seconds. -/
def EMAIL_TOKEN_TTL : Nat := 7 * 24 * 3600

/-- Modelled from the spec: verification checks signature integrity and
expiry; it fails (uniformly) if either check fails. -/
def verifyToken (t : Token) (now : Nat) : Bool :=
  t.valid && decide (now < t.exp)

/-- Modelled from the spec: create_access_token embeds the given claims plus
issuance/expiry stamps and signs them; the TTL is the short access-token TTL.
The auth routes call it with data = {sub} for login and
data = {sub, password} for the reset-request route (src/api/auth.py). -/
def create_access_token (sub : String) (password : Option String) (now : Nat) : Token :=
  { sub := some sub, password := password, iat := now, exp := now + ACCESS_TOKEN_TTL, valid := true }

/-- Modelled from the spec: create_email_token (used by send_confirm_email in
src/services/email_service.py) issues a confirmation token with the longer
email-token TTL, subject = the recipient email. -/
def create_email_token (sub : String) (now : Nat) : Token :=
  { sub := some sub, password := none, iat := now, exp := now + EMAIL_TOKEN_TTL, valid := true }

/-- Modelled from the spec: subject extraction returns none (does not raise)
when verification fails. -/
def get_email_from_token (t : Token) (now : Nat) : Option String :=
  if verifyToken t now then t.sub else none

/-- Modelled from the spec: auxiliary-claim extraction returns none when
verification fails. -/
def get_password_from_token (t : Token) (now : Nat) : Option String :=
  if verifyToken t now then t.password else none

/-- Python truthiness of an optional string: None and the empty string are
falsy (the check `if not email or not hashed_password` in src/api/auth.py). -/
def strTruthy : Option String → Bool
  | none => false
  | some s => !s.isEmpty

namespace UserRepository

/-- UserRepository.get_user_by_id (src/repository/users_repository.py):
select User filter_by id. -/
def get_user_by_id (db : DB) (user_id : Nat) : Option DBUser :=
  db.users.find? (fun u => u.id == user_id)

/-- UserRepository.get_user_by_username: select User filter_by username. -/
def get_user_by_username (db : DB) (username : String) : Option DBUser :=
  db.users.find? (fun u => u.username == username)

/-- UserRepository.get_user_by_email: select User filter_by email. -/
def get_user_by_email (db : DB) (email : String) : Option DBUser :=
  db.users.find? (fun u => u.email == email)

/-- UserRepository.create_user: persists a User built from the UserCreate body
(role copied from the body by model_dump), hashed_password = body.password
(already hashed by the route), confirmed takes the column default False. -/
def create_user (db : DB) (body : UserCreate) (avatar : Option String) (newId : Nat) : DBUser × DB :=
  let u : DBUser :=
    { id := newId, username := body.username, email := body.email,
      hashed_password := body.password, confirmed := false,
      role := body.role, avatar := avatar }
  (u, { db with users := db.users ++ [u] })

/-- UserRepository.confirmed_email: fetches the user by email and sets its
confirmed flag to True, committing the single-row change. -/
def confirmed_email (db : DB) (email : String) : DB :=
  { db with users := db.users.map (fun v => if v.email == email then { v with confirmed := true } else v) }

/-- UserRepository.reset_password: fetches the user by id and, when present,
overwrites its hashed_password with the given (already hashed) password. -/
def reset_password (db : DB) (user_id : Nat) (password : String) : Option DBUser × DB :=
  match get_user_by_id db user_id with
  | none => (none, db)
  | some u =>
    (some { u with hashed_password := password },
     { db with users := db.users.map (fun v => if v.id == user_id then { v with hashed_password := password } else v) })

end UserRepository

/-- Sort key for the ORDER BY birth_date ASC clause; the query filters out
null birth dates before sorting, so the default never decides an order. -/
def bdKey (c : Contact) : Nat := c.birth_date.getD 0

/-- Ascending-birth-date ordering used by get_upcoming_birthdays. -/
def bdLE (a b : Contact) : Prop := bdKey a ≤ bdKey b

instance : DecidableRel bdLE := fun a b => Nat.decLe (bdKey a) (bdKey b)

instance : IsTotal Contact bdLE := ⟨fun a b => Nat.le_total (bdKey a) (bdKey b)⟩

instance : IsTrans Contact bdLE := ⟨fun _ _ _ h h2 => Nat.le_trans h h2⟩

namespace ContactRepository

/-- ContactRepository.get_contact_by_id
(src/repository/contacts_repository.py): select Contact
filter_by(id=contact_id, user=user) — the lookup is owner-scoped. -/
def get_contact_by_id (db : DB) (contact_id : Nat) (userId : Nat) : Option Contact :=
  db.contacts.find? (fun c => c.id == contact_id && c.user_id == userId)

/-- ContactRepository.create_contact: builds a Contact from the body fields
and the owning user and commits it. -/
def create_contact (db : DB) (body : ContactModel) (userId newId now : Nat) : Contact × DB :=
  let c : Contact :=
    { id := newId, first_name := body.first_name, last_name := body.last_name,
      email := body.email, phone_number := body.phone_number,
      birth_date := body.birth_date, info := body.info,
      user_id := userId, created_at := now, updated_at := now }
  (c, { db with contacts := db.contacts ++ [c] })

/-- The setattr loop of ContactRepository.update_contact: every key present
in body.dict(exclude_unset=True) overwrites the corresponding attribute. -/
def applyUpdate (c : Contact) (body : ContactUpdate) : Contact :=
  { c with
    first_name := body.first_name.getD c.first_name,
    last_name := body.last_name.getD c.last_name,
    email := body.email.getD c.email,
    phone_number := body.phone_number.getD c.phone_number,
    birth_date := body.birth_date.getD c.birth_date,
    info := body.info.getD c.info }

/-- ContactRepository.update_contact: owner-scoped fetch, then the setattr
loop and a commit (the updated_at column is refreshed by its onupdate clause);
returns None, leaving the table untouched, when the owner-scoped fetch finds
nothing. -/
def update_contact (db : DB) (contact_id : Nat) (body : ContactUpdate) (userId now : Nat) :
    Option Contact × DB :=
  match get_contact_by_id db contact_id userId with
  | none => (none, db)
  | some c =>
    let c2 := { applyUpdate c body with updated_at := now }
    (some c2, { db with contacts := db.contacts.map (fun x => if x.id == c.id then c2 else x) })

/-- ContactRepository.remove_contact: owner-scoped fetch, then delete of that
row; returns None and leaves the table untouched when the fetch finds
nothing. -/
def remove_contact (db : DB) (contact_id : Nat) (userId : Nat) : Option Contact × DB :=
  match get_contact_by_id db contact_id userId with
  | none => (none, db)
  | some c =>
    (some c, { db with contacts := db.contacts.filter (fun x => x.id != c.id) })

/-- ContactRepository.is_contact_exists: select Contact where email = email
OR phone_number = phone_number. The user parameter is accepted but never used
in the query — the uniqueness check is global, not per-owner. -/
def is_contact_exists (db : DB) (email phone_number : String) (userId : Nat) : Bool :=
  db.contacts.any (fun c => c.email == email || c.phone_number == phone_number)

/-- ContactRepository.get_upcoming_birthdays: select Contact where birth_date
IS NOT NULL and today <= birth_date <= today + days, ORDER BY birth_date ASC.
The user parameter is accepted but never used in the query. -/
def get_upcoming_birthdays (db : DB) (days : Nat) (userId : Nat) (today : Nat) : List Contact :=
  List.insertionSort bdLE
    (db.contacts.filter (fun c =>
      match c.birth_date with
      | none => false
      | some bd => decide (today ≤ bd) && decide (bd ≤ today + days)))

end ContactRepository

namespace ContactService

/-- ContactService.create_contact (src/services/contacts_service.py): raises
the 400 duplicate error when is_contact_exists reports a collision anywhere
in the table, otherwise delegates to the repository. -/
def create_contact (db : DB) (body : ContactModel) (userId newId now : Nat) :
    (Except ApiError Contact) × DB :=
  if ContactRepository.is_contact_exists db body.email body.phone_number userId then
    (.error .duplicateContact, db)
  else
    let r := ContactRepository.create_contact db body userId newId now
    (.ok r.1, r.2)

end ContactService

/-- PUT /contacts/{contact_id} (src/api/contacts.py): delegates to the
service (which delegates straight to the repository, with no duplicate
check) and turns a None result into a 404. -/
def update_contact_route (db : DB) (contact_id : Nat) (body : ContactUpdate) (userId now : Nat) :
    (Except ApiError Contact) × DB :=
  match ContactRepository.update_contact db contact_id body userId now with
  | (none, db2) => (.error .contactNotFound, db2)
  | (some c, db2) => (.ok c, db2)

/-- POST /auth/register (src/api/auth.py, register_user): 409 on duplicate
email, then 409 on duplicate username, otherwise hash the password and
persist the user; the route requires no authentication (it takes no caller). -/
def register_user (db : DB) (hash : String → String) (body : UserCreate) (avatar : Option String) (newId : Nat) :
    (Except ApiError DBUser) × DB :=
  match UserRepository.get_user_by_email db body.email with
  | some _ => (.error .duplicateEmail, db)
  | none =>
    match UserRepository.get_user_by_username db body.username with
    | some _ => (.error .duplicateUsername, db)
    | none =>
      let r := UserRepository.create_user db { body with password := hash body.password } avatar newId
      (.ok r.1, r.2)

/-- POST /auth/login (src/api/auth.py, login_user): a single 401
InvalidCredentials for both a missing user and a failed password check, a 401
NotConfirmed for an unconfirmed user, otherwise an access token with the
user's username as subject. The Credential Hasher's verify is passed in as a
function (src/services/auth_service.py is not part of src/). -/
def login_user (db : DB) (verify : String → String → Bool) (username password : String) (now : Nat) :
    Except ApiError Token :=
  match UserRepository.get_user_by_username db username with
  | none => .error .invalidCredentials
  | some u =>
    if !(verify password u.hashed_password) then .error .invalidCredentials
    else if !u.confirmed then .error .notConfirmed
    else .ok (create_access_token u.username none now)

/-- GET /auth/confirmed_email/{token} (src/api/auth.py, confirmed_email):
extract the email from the token, look the user up, 400 when absent, the
idempotent already-confirmed message when confirmed, otherwise flip the
confirmed flag. -/
def confirmed_email_route (db : DB) (token : Token) (now : Nat) :
    (Except ApiError String) × DB :=
  match get_email_from_token token now with
  | none => (.error .verificationError, db)
  | some email =>
    match UserRepository.get_user_by_email db email with
    | none => (.error .verificationError, db)
    | some u =>
      if u.confirmed then (.ok EMAIL_ALREADY_CONFIRMED, db)
      else (.ok EMAIL_CONFIRMED, UserRepository.confirmed_email db email)

/-- POST /auth/reset_password (src/api/auth.py, reset_password_request):
generic answer for an unknown email, 400 for an unconfirmed user, otherwise
hash the new password now and embed it in a reset token issued through
create_access_token (no TTL override); the token is handed to the background
email task and is returned here alongside the response. No database write
happens on any branch. -/
def reset_password_request (db : DB) (hash : String → String) (email password : String) (now : Nat) :
    (Except ApiError (String × Option Token)) × DB :=
  match UserRepository.get_user_by_email db email with
  | none => (.ok (CHECK_YOUR_EMAIL, none), db)
  | some u =>
    if !u.confirmed then (.error .emailNotConfirmed, db)
    else (.ok (CHECK_YOUR_EMAIL, some (create_access_token u.email (some (hash password)) now)), db)

/-- GET /auth/confirm_reset_password/{token} (src/api/auth.py,
confirm_reset_password): extract subject and pending-password claims; the
check `if not email or not hashed_password` treats None and the empty string
as failure (400); 404 when no user has that email; otherwise overwrite that
user's hashed_password with the hash carried by the token. -/
def confirm_reset_password (db : DB) (token : Token) (now : Nat) :
    (Except ApiError String) × DB :=
  let email := get_email_from_token token now
  let pwd := get_password_from_token token now
  if !(strTruthy email) || !(strTruthy pwd) then (.error .invalidOrExpiredToken, db)
  else
    match UserRepository.get_user_by_email db (email.getD "") with
    | none => (.error .userNotFound, db)
    | some u =>
      (.ok PASSWORD_CHANGED, (UserRepository.reset_password db u.id (pwd.getD "")).2)

/-!
Concrete fixture used by the witness theorems: two users (alice confirmed,
bob not) and two contacts, one per owner.
-/

/-- Fixture contact owned by user 1. -/
def demoAnn : Contact :=
  { id := 1, first_name := "Ann", last_name := "Lee", email := "ann@mail.com",
    phone_number := "111", birth_date := some 100, info := none,
    user_id := 1, created_at := 0, updated_at := 0 }

/-- Fixture contact owned by user 2. -/
def demoBen : Contact :=
  { id := 2, first_name := "Ben", last_name := "Fox", email := "ben@mail.com",
    phone_number := "222", birth_date := some 103, info := none,
    user_id := 2, created_at := 0, updated_at := 0 }

/-- Fixture confirmed user. -/
def demoAlice : DBUser :=
  { id := 1, username := "alice", email := "alice@mail.com",
    hashed_password := "hashed:pw1", confirmed := true, role := .user, avatar := none }

/-- Fixture unconfirmed user. -/
def demoBob : DBUser :=
  { id := 2, username := "bob", email := "bob@mail.com",
    hashed_password := "hashed:pw2", confirmed := false, role := .user, avatar := none }

/-- Fixture database. -/
def demoDB : DB := { users := [demoAlice, demoBob], contacts := [demoAnn, demoBen] }

/-- Concrete stand-in for the one-way hash in witness statements. -/
def demoHash (s : String) : String := String.append "hashed:" s

/-- Concrete stand-in for password verification in witness statements. -/
def demoVerify (plain digest : String) : Bool := digest == demoHash plain

/-- Fixture update body that collides with demoBen's email. -/
def demoUpdate : ContactUpdate :=
  { first_name := some "Ann", last_name := some "Lee", email := some "ben@mail.com",
    phone_number := some "111", birth_date := none, info := none }

deriving instance DecidableEq for Except

/-- Time-to-live of an issued token: how long after its issuance instant the
expiry check still passes. -/
def tokenTTL (t : Token) : Nat := t.exp - t.iat

/-- Fixture reset token bound to alice, carrying a pending hashed password. -/
def demoResetTok : Token :=
  { sub := some "alice@mail.com", password := some "hashed:new", iat := 0, exp := 3600, valid := true }

/-- Fixture confirmation token bound to the unconfirmed user bob. -/
def demoConfirmTok : Token :=
  { sub := some "bob@mail.com", password := none, iat := 0, exp := 3600, valid := true }

/-- Fixture registration body asking for the admin role. -/
def demoAdminBody : UserCreate :=
  { username := "eve", email := "eve@mail.com", password := "pw", role := .admin }

/-- The user record register_user persists for demoAdminBody. -/
def demoAdminUser : DBUser :=
  { id := 3, username := "eve", email := "eve@mail.com",
    hashed_password := demoHash "pw", confirmed := false, role := .admin, avatar := none }

/-- Helper: find? distributes over a map that does not change the truth of
the searched predicate. -/
theorem find?_map_of_pred_eq {α : Type} (l : List α) (p : α → Bool) (g : α → α)
    (hg : ∀ v, p (g v) = p v) :
    (l.map g).find? p = (l.find? p).map g := by
  induction l with
  | nil => rfl
  | cons a l ih =>
    by_cases h : p a = true
    · rw [List.map_cons, List.find?_cons_of_pos _ (by rw [hg]; exact h),
        List.find?_cons_of_pos _ h]
      rfl
    · have h2 : p a = false := Bool.eq_false_iff.mpr h
      rw [List.map_cons, List.find?_cons_of_neg, List.find?_cons_of_neg, ih]
      · simp [h2]
      · simp [hg, h2]

/-- Claim C1: owner scoping of the point operations — when no contact with the
given id is owned by the caller (in particular when that id belongs to a
different user's contact), get_contact_by_id returns None, and update_contact
and remove_contact return None and leave the database untouched. -/
theorem c1_owner_scoped_absent (db : DB) (cid uid : Nat) (body : ContactUpdate) (now : Nat)
    (h : ∀ c ∈ db.contacts, c.id = cid → c.user_id ≠ uid) :
    ContactRepository.get_contact_by_id db cid uid = none ∧
    ContactRepository.update_contact db cid body uid now = (none, db) ∧
    ContactRepository.remove_contact db cid uid = (none, db) := by
  have hfind : ContactRepository.get_contact_by_id db cid uid = none := by
    unfold ContactRepository.get_contact_by_id
    rw [List.find?_eq_none]
    intro c hc
    simp only [Bool.and_eq_true, beq_iff_eq, not_and]
    intro h1 h2
    exact h c hc h1 h2
  refine ⟨hfind, ?_, ?_⟩
  · unfold ContactRepository.update_contact
    rw [hfind]
  · unfold ContactRepository.remove_contact
    rw [hfind]

/-- Witness for C1: in the fixture, contact 2 is owned by user 2, so caller 1
gets absent from all three operations and the database is unchanged. -/
theorem c1_owner_scoped_absent_witness :
    ContactRepository.get_contact_by_id demoDB 2 1 = none ∧
    ContactRepository.update_contact demoDB 2 demoUpdate 1 50 = (none, demoDB) ∧
    ContactRepository.remove_contact demoDB 2 1 = (none, demoDB) :=
  c1_owner_scoped_absent demoDB 2 1 demoUpdate 50 (by decide)

/-- Claim C2: contact creation's duplicate rule is global — the service
raises the 400 duplicate error exactly when some contact anywhere in the
table (any owner) shares the body's email or phone number, and otherwise
persists a new contact owned by the caller. -/
theorem c2_create_contact_global_duplicate (db : DB) (body : ContactModel) (uid newId now : Nat) :
    (((ContactService.create_contact db body uid newId now).1 = Except.error ApiError.duplicateContact) ↔
      ∃ c ∈ db.contacts, c.email = body.email ∨ c.phone_number = body.phone_number) ∧
    ((¬ ∃ c ∈ db.contacts, c.email = body.email ∨ c.phone_number = body.phone_number) →
      ContactService.create_contact db body uid newId now =
        (Except.ok
          { id := newId, first_name := body.first_name, last_name := body.last_name,
            email := body.email, phone_number := body.phone_number,
            birth_date := body.birth_date, info := body.info,
            user_id := uid, created_at := now, updated_at := now },
         { users := db.users,
           contacts := db.contacts ++
             [{ id := newId, first_name := body.first_name, last_name := body.last_name,
                email := body.email, phone_number := body.phone_number,
                birth_date := body.birth_date, info := body.info,
                user_id := uid, created_at := now, updated_at := now }] })) := by
  have hiff : (ContactRepository.is_contact_exists db body.email body.phone_number uid = true) ↔
      ∃ c ∈ db.contacts, c.email = body.email ∨ c.phone_number = body.phone_number := by
    simp [ContactRepository.is_contact_exists, List.any_eq_true]
  by_cases hex : ContactRepository.is_contact_exists db body.email body.phone_number uid = true
  · refine ⟨⟨fun _ => hiff.mp hex, fun _ => ?_⟩, fun hno => absurd (hiff.mp hex) hno⟩
    simp [ContactService.create_contact, hex]
  · have hex2 : ContactRepository.is_contact_exists db body.email body.phone_number uid = false :=
      Bool.eq_false_iff.mpr hex
    refine ⟨⟨fun habs => ?_, fun hs => absurd (hiff.mpr hs) hex⟩, fun _ => ?_⟩
    · simp [ContactService.create_contact, hex2] at habs
    · simp [ContactService.create_contact, hex2, ContactRepository.create_contact]

/-- Witness for C2: adding a contact with a fresh email and phone to the
fixture succeeds and appends the new row owned by the caller. -/
theorem c2_create_contact_global_duplicate_witness :
    ContactService.create_contact demoDB
        { first_name := "Cid", last_name := "Orr", email := "cid@mail.com",
          phone_number := "333", birth_date := none, info := none } 1 3 60 =
      (Except.ok
        { id := 3, first_name := "Cid", last_name := "Orr",
          email := "cid@mail.com", phone_number := "333",
          birth_date := none, info := none,
          user_id := 1, created_at := 60, updated_at := 60 },
       { users := demoDB.users,
         contacts := demoDB.contacts ++
           [{ id := 3, first_name := "Cid", last_name := "Orr",
              email := "cid@mail.com", phone_number := "333",
              birth_date := none, info := none,
              user_id := 1, created_at := 60, updated_at := 60 }] }) :=
  (c2_create_contact_global_duplicate demoDB
    { first_name := "Cid", last_name := "Orr", email := "cid@mail.com",
      phone_number := "333", birth_date := none, info := none } 1 3 60).2 (by decide)

/-- Claim C10: the update path performs no email/phone duplicate check — the
route never raises the duplicate error, and on an owned contact it applies
every supplied field (including an email or phone number equal to another
contact's) unconditionally. -/
theorem c10_update_applies_fields_unchecked (db : DB) (cid : Nat) (body : ContactUpdate) (uid now : Nat) :
    ((update_contact_route db cid body uid now).1 ≠ Except.error ApiError.duplicateContact) ∧
    (∀ c, ContactRepository.get_contact_by_id db cid uid = some c →
      update_contact_route db cid body uid now =
        (Except.ok { ContactRepository.applyUpdate c body with updated_at := now },
         { users := db.users,
           contacts := db.contacts.map (fun x =>
             if x.id == c.id then { ContactRepository.applyUpdate c body with updated_at := now } else x) }) ∧
      (ContactRepository.applyUpdate c body).email = body.email.getD c.email ∧
      (ContactRepository.applyUpdate c body).phone_number = body.phone_number.getD c.phone_number) := by
  constructor
  · cases hg : ContactRepository.get_contact_by_id db cid uid with
    | none => simp [update_contact_route, ContactRepository.update_contact, hg]
    | some c => simp [update_contact_route, ContactRepository.update_contact, hg]
  · intro c hg
    refine ⟨?_, rfl, rfl⟩
    simp [update_contact_route, ContactRepository.update_contact, hg]

/-- Witness for C10: updating the fixture's contact 1 (owned by caller 1)
with an email equal to contact 2's email is accepted, not rejected. -/
theorem c10_update_applies_fields_unchecked_witness :
    ((update_contact_route demoDB 1 demoUpdate 1 70).1 ≠ Except.error ApiError.duplicateContact) ∧
    update_contact_route demoDB 1 demoUpdate 1 70 =
      (Except.ok { ContactRepository.applyUpdate demoAnn demoUpdate with updated_at := 70 },
       { users := demoDB.users,
         contacts := demoDB.contacts.map (fun x =>
           if x.id == demoAnn.id then { ContactRepository.applyUpdate demoAnn demoUpdate with updated_at := 70 } else x) }) ∧
    (ContactRepository.applyUpdate demoAnn demoUpdate).email = "ben@mail.com" :=
  ⟨(c10_update_applies_fields_unchecked demoDB 1 demoUpdate 1 70).1,
   ((c10_update_applies_fields_unchecked demoDB 1 demoUpdate 1 70).2 demoAnn (by decide)).1,
   by decide⟩

/-- Claim C5: for any days >= 1 and any caller, the birthday query returns
exactly the contacts of ALL owners whose birth_date is non-null and lies in
the inclusive range [today, today + days], sorted ascending by birth_date;
the result does not depend on the caller. -/
theorem c5_upcoming_birthdays_semantics (db : DB) (days uid today : Nat) (h : 1 ≤ days) :
    (∀ c, c ∈ ContactRepository.get_upcoming_birthdays db days uid today ↔
      (c ∈ db.contacts ∧ ∃ bd, c.birth_date = some bd ∧ today ≤ bd ∧ bd ≤ today + days)) ∧
    List.Sorted bdLE (ContactRepository.get_upcoming_birthdays db days uid today) ∧
    (∀ uid2, ContactRepository.get_upcoming_birthdays db days uid2 today =
      ContactRepository.get_upcoming_birthdays db days uid today) := by
  refine ⟨?_, ?_, fun uid2 => rfl⟩
  · intro c
    simp only [ContactRepository.get_upcoming_birthdays, List.mem_insertionSort, List.mem_filter]
    constructor
    · rintro ⟨hc, hp⟩
      refine ⟨hc, ?_⟩
      cases hbd : c.birth_date with
      | none => rw [hbd] at hp; simp at hp
      | some bd =>
        rw [hbd] at hp
        simp only [Bool.and_eq_true, decide_eq_true_eq] at hp
        exact ⟨bd, rfl, hp.1, hp.2⟩
    · rintro ⟨hc, bd, hbd, h1, h2⟩
      refine ⟨hc, ?_⟩
      rw [hbd]
      simp [h1, h2]
  · exact List.sorted_insertionSort bdLE _

/-- Witness for C5: on the fixture with today = 98 and days = 7, both
contacts (owned by different users) fall in the window and come back sorted
ascending by birth date. -/
theorem c5_upcoming_birthdays_semantics_witness :
    (demoAnn ∈ ContactRepository.get_upcoming_birthdays demoDB 7 1 98 ↔
      (demoAnn ∈ demoDB.contacts ∧
        ∃ bd, demoAnn.birth_date = some bd ∧ 98 ≤ bd ∧ bd ≤ 98 + 7)) ∧
    List.Sorted bdLE (ContactRepository.get_upcoming_birthdays demoDB 7 1 98) ∧
    ContactRepository.get_upcoming_birthdays demoDB 7 2 98 =
      ContactRepository.get_upcoming_birthdays demoDB 7 1 98 :=
  ⟨(c5_upcoming_birthdays_semantics demoDB 7 1 98 (by decide)).1 demoAnn,
   (c5_upcoming_birthdays_semantics demoDB 7 1 98 (by decide)).2.1,
   (c5_upcoming_birthdays_semantics demoDB 7 1 98 (by decide)).2.2 2⟩

/-- Claim C4: login yields the identical invalid-credentials 401 both for a
missing user and for a failing password check; it yields the not-confirmed
401 exactly when the user exists, the password verifies and confirmed is
false; and it returns an access token whose subject is the username only
when the user exists, the password verifies and confirmed is true. -/
theorem c4_login_error_discrimination (db : DB) (verify : String → String → Bool)
    (username password : String) (now : Nat) :
    (UserRepository.get_user_by_username db username = none →
      login_user db verify username password now = Except.error ApiError.invalidCredentials) ∧
    (∀ u, UserRepository.get_user_by_username db username = some u →
      verify password u.hashed_password = false →
      login_user db verify username password now = Except.error ApiError.invalidCredentials) ∧
    (∀ u, UserRepository.get_user_by_username db username = some u →
      verify password u.hashed_password = true → u.confirmed = false →
      login_user db verify username password now = Except.error ApiError.notConfirmed) ∧
    (∀ u, UserRepository.get_user_by_username db username = some u →
      verify password u.hashed_password = true → u.confirmed = true →
      login_user db verify username password now = Except.ok (create_access_token username none now)) ∧
    (∀ t, login_user db verify username password now = Except.ok t →
      t.sub = some username ∧
      ∃ u, UserRepository.get_user_by_username db username = some u ∧
        verify password u.hashed_password = true ∧ u.confirmed = true) := by
  have hname : ∀ u, UserRepository.get_user_by_username db username = some u →
      u.username = username := by
    intro u hu
    unfold UserRepository.get_user_by_username at hu
    simpa using List.find?_some hu
  refine ⟨?_, ?_, ?_, ?_, ?_⟩
  · intro hu
    simp [login_user, hu]
  · intro u hu hv
    simp [login_user, hu, hv]
  · intro u hu hv hc
    simp [login_user, hu, hv, hc]
  · intro u hu hv hc
    simp [login_user, hu, hv, hc, hname u hu]
  · intro t ht
    cases hu : UserRepository.get_user_by_username db username with
    | none => rw [login_user, hu] at ht; cases ht
    | some u =>
      by_cases hv : verify password u.hashed_password = true
      · by_cases hc : u.confirmed = true
        · have hval : login_user db verify username password now =
              Except.ok (create_access_token u.username none now) := by
            simp [login_user, hu, hv, hc]
          rw [hval] at ht
          have ht2 : create_access_token u.username none now = t := by
            injection ht
          refine ⟨?_, u, rfl, hv, hc⟩
          rw [← ht2]
          simp [create_access_token, hname u hu]
        · have hval : login_user db verify username password now =
              Except.error ApiError.notConfirmed := by
            simp [login_user, hu, hv, Bool.eq_false_iff.mpr hc]
          rw [hval] at ht
          cases ht
      · have hval : login_user db verify username password now =
            Except.error ApiError.invalidCredentials := by
          simp [login_user, hu, Bool.eq_false_iff.mpr hv]
        rw [hval] at ht
        cases ht

/-- Witness for C4: in the fixture, alice is confirmed and the right password
verifies, so login returns an access token with subject alice; bob is
unconfirmed, so login with his correct password yields the not-confirmed
error. -/
theorem c4_login_error_discrimination_witness :
    login_user demoDB demoVerify "alice" "pw1" 200 =
      Except.ok (create_access_token "alice" none 200) ∧
    login_user demoDB demoVerify "bob" "pw2" 200 = Except.error ApiError.notConfirmed ∧
    login_user demoDB demoVerify "alice" "wrong" 200 = Except.error ApiError.invalidCredentials ∧
    login_user demoDB demoVerify "nobody" "pw" 200 = Except.error ApiError.invalidCredentials :=
  ⟨(c4_login_error_discrimination demoDB demoVerify "alice" "pw1" 200).2.2.2.1
      demoAlice (by decide) (by decide) (by decide),
   (c4_login_error_discrimination demoDB demoVerify "bob" "pw2" 200).2.2.1
      demoBob (by decide) (by decide) (by decide),
   (c4_login_error_discrimination demoDB demoVerify "alice" "wrong" 200).2.1
      demoAlice (by decide) (by decide),
   (c4_login_error_discrimination demoDB demoVerify "nobody" "pw" 200).1 (by decide)⟩

/-- Claim C3: password-reset confirmation fails with the 400
invalid-or-expired error when the subject or the pending-password claim
cannot be extracted, leaving the database unchanged; fails with the 404
user-not-found error, leaving the database unchanged, when both extractions
yield usable values but no user has that email; and otherwise overwrites
exactly the matched user's hashed_password with the hash embedded in the
token, leaving all other user records unchanged. -/
theorem c3_confirm_reset_password_spec (db : DB) (tok : Token) (now : Nat) :
    ((get_email_from_token tok now = none ∨ get_password_from_token tok now = none) →
      confirm_reset_password db tok now = (Except.error ApiError.invalidOrExpiredToken, db)) ∧
    (∀ e p, get_email_from_token tok now = some e → e ≠ "" →
      get_password_from_token tok now = some p → p ≠ "" →
      ((UserRepository.get_user_by_email db e = none →
        confirm_reset_password db tok now = (Except.error ApiError.userNotFound, db)) ∧
      (∀ u, UserRepository.get_user_by_email db e = some u →
        (confirm_reset_password db tok now =
          (Except.ok PASSWORD_CHANGED,
           { users := db.users.map (fun v =>
               if v.id == u.id then { v with hashed_password := p } else v),
             contacts := db.contacts }) ∧
        (∀ v, v ∈ db.users → v.id ≠ u.id →
          v ∈ (confirm_reset_password db tok now).2.users))))) := by
  constructor
  · intro h
    rcases h with h | h
    · simp [confirm_reset_password, h, strTruthy]
    · simp [confirm_reset_password, h, strTruthy]
  · intro e p he hne hp hnp
    have hie : e.isEmpty = false := by
      rw [Bool.eq_false_iff]
      intro hb
      exact hne ((String.isEmpty_iff e).mp hb)
    have hip : p.isEmpty = false := by
      rw [Bool.eq_false_iff]
      intro hb
      exact hnp ((String.isEmpty_iff p).mp hb)
    constructor
    · intro hnone
      simp [confirm_reset_password, he, hp, strTruthy, hie, hip, hnone]
    · intro u hu
      have hmem : u ∈ db.users := List.mem_of_find?_eq_some hu
      have hid : ∃ w, UserRepository.get_user_by_id db u.id = some w := by
        cases hw : UserRepository.get_user_by_id db u.id with
        | some w => exact ⟨w, rfl⟩
        | none =>
          exfalso
          unfold UserRepository.get_user_by_id at hw
          have := List.find?_eq_none.mp hw u hmem
          simp at this
      obtain ⟨w, hw⟩ := hid
      have hroute : confirm_reset_password db tok now =
          (Except.ok PASSWORD_CHANGED,
           { users := db.users.map (fun v =>
               if v.id == u.id then { v with hashed_password := p } else v),
             contacts := db.contacts }) := by
        simp [confirm_reset_password, he, hp, strTruthy, hie, hip, hu,
          UserRepository.reset_password, hw]
      refine ⟨hroute, ?_⟩
      intro v hv hvne
      rw [hroute]
      exact List.mem_map.mpr ⟨v, hv, by simp [hvne]⟩

/-- Witness for C3: a valid reset token for alice overwrites only alice's
hashed password with the hash carried in the token. -/
theorem c3_confirm_reset_password_spec_witness :
    confirm_reset_password demoDB demoResetTok 10 =
      (Except.ok PASSWORD_CHANGED,
       { users := [{ demoAlice with hashed_password := "hashed:new" }, demoBob],
         contacts := demoDB.contacts }) := by
  have h := (((c3_confirm_reset_password_spec demoDB demoResetTok 10).2 "alice@mail.com"
      "hashed:new" (by decide) (by decide) (by decide) (by decide)).2 demoAlice (by decide)).1
  rw [h]
  decide

/-- Claim C6: confirming the email of an already-confirmed user returns the
already-confirmed message and leaves the database unchanged; confirming a
valid token for an existing unconfirmed user sets only that user's confirmed
flag; hence a second confirmation with the same valid token is a no-op on
state. -/
theorem c6_confirmed_email_idempotent (db : DB) (tok : Token) (now : Nat) (e : String)
    (he : get_email_from_token tok now = some e) :
    (∀ u, UserRepository.get_user_by_email db e = some u → u.confirmed = true →
      confirmed_email_route db tok now = (Except.ok EMAIL_ALREADY_CONFIRMED, db)) ∧
    (∀ u, UserRepository.get_user_by_email db e = some u → u.confirmed = false →
      (confirmed_email_route db tok now =
        (Except.ok EMAIL_CONFIRMED,
         { users := db.users.map (fun v =>
             if v.email == e then { v with confirmed := true } else v),
           contacts := db.contacts }) ∧
      (∀ v, v ∈ db.users → v.email ≠ e →
        v ∈ (confirmed_email_route db tok now).2.users) ∧
      (∀ db2, confirmed_email_route db tok now = (Except.ok EMAIL_CONFIRMED, db2) →
        confirmed_email_route db2 tok now = (Except.ok EMAIL_ALREADY_CONFIRMED, db2)))) := by
  constructor
  · intro u hu hc
    simp [confirmed_email_route, he, hu, hc]
  · intro u hu hc
    have hue : (u.email == e) = true := by
      have h2 := List.find?_some hu
      simpa using h2
    have hroute : confirmed_email_route db tok now =
        (Except.ok EMAIL_CONFIRMED,
         { users := db.users.map (fun v =>
             if v.email == e then { v with confirmed := true } else v),
           contacts := db.contacts }) := by
      simp [confirmed_email_route, he, hu, hc, UserRepository.confirmed_email]
    refine ⟨hroute, ?_, ?_⟩
    · intro v hv hvne
      rw [hroute]
      exact List.mem_map.mpr ⟨v, hv, by simp [hvne]⟩
    · intro db2 heq
      have hdb2 : db2 =
          { users := db.users.map (fun v =>
              if v.email == e then { v with confirmed := true } else v),
            contacts := db.contacts } := by
        have := heq.symm.trans hroute
        exact (Prod.mk.injEq _ _ _ _).mp this |>.2
      subst hdb2
      have hg : ∀ v : DBUser,
          ((if v.email == e then { v with confirmed := true } else v).email == e) =
            (v.email == e) := by
        intro v
        by_cases hve : (v.email == e) = true
        · simp [hve]
        · simp [Bool.eq_false_iff.mpr hve]
      have hfind2 : UserRepository.get_user_by_email
          ({ users := db.users.map (fun v =>
              if v.email == e then { v with confirmed := true } else v),
             contacts := db.contacts } : DB) e = some { u with confirmed := true } := by
        unfold UserRepository.get_user_by_email
        rw [find?_map_of_pred_eq db.users (fun v => v.email == e) _ hg]
        unfold UserRepository.get_user_by_email at hu
        rw [hu]
        show some (if u.email == e then { u with confirmed := true } else u) =
          some { u with confirmed := true }
        rw [if_pos hue]
      simp only [confirmed_email_route, he]
      rw [hfind2]
      simp

/-- Witness for C6: confirming bob's valid token flips only bob's confirmed
flag, and a second confirmation with the same token returns the
already-confirmed message leaving the state as it was. -/
theorem c6_confirmed_email_idempotent_witness :
    confirmed_email_route demoDB demoConfirmTok 10 =
      (Except.ok EMAIL_CONFIRMED,
       { users := demoDB.users.map (fun v =>
           if v.email == "bob@mail.com" then { v with confirmed := true } else v),
         contacts := demoDB.contacts }) ∧
    confirmed_email_route
        { users := [demoAlice, { demoBob with confirmed := true }],
          contacts := demoDB.contacts } demoConfirmTok 10 =
      (Except.ok EMAIL_ALREADY_CONFIRMED,
       { users := [demoAlice, { demoBob with confirmed := true }],
         contacts := demoDB.contacts }) :=
  ⟨((c6_confirmed_email_idempotent demoDB demoConfirmTok 10 "bob@mail.com" (by decide)).2
      demoBob (by decide) (by decide)).1,
   ((c6_confirmed_email_idempotent demoDB demoConfirmTok 10 "bob@mail.com" (by decide)).2
      demoBob (by decide) (by decide)).2.2
     { users := [demoAlice, { demoBob with confirmed := true }], contacts := demoDB.contacts }
     (by decide)⟩

/-- Claim C7: a successful reset request for an existing confirmed user
leaves the database (every user record, in particular the requester's
hashed_password) unchanged; the newly hashed password travels only inside
the issued reset token. -/
theorem c7_reset_request_frame (db : DB) (hash : String → String) (email password : String)
    (now : Nat) (u : DBUser)
    (hu : UserRepository.get_user_by_email db email = some u) (hc : u.confirmed = true) :
    reset_password_request db hash email password now =
      (Except.ok (CHECK_YOUR_EMAIL, some (create_access_token u.email (some (hash password)) now)),
       db) ∧
    (create_access_token u.email (some (hash password)) now).password = some (hash password) := by
  refine ⟨?_, rfl⟩
  simp [reset_password_request, hu, hc]

/-- Witness for C7: alice's reset request returns the generic message plus a
token carrying the new hash, and the fixture database comes back unchanged. -/
theorem c7_reset_request_frame_witness :
    reset_password_request demoDB demoHash "alice@mail.com" "npw" 42 =
      (Except.ok (CHECK_YOUR_EMAIL,
        some (create_access_token demoAlice.email (some (demoHash "npw")) 42)), demoDB) ∧
    (create_access_token demoAlice.email (some (demoHash "npw")) 42).password =
      some (demoHash "npw") :=
  c7_reset_request_frame demoDB demoHash "alice@mail.com" "npw" 42 demoAlice
    (by decide) (by decide)

/-- Claim C9: registration persists the client-supplied role verbatim — on
any successful (unauthenticated) registration the created user's role equals
the request body's role, its confirmed flag starts false, and the record is
persisted; in particular a body asking for the admin role yields an admin
user. -/
theorem c9_register_persists_role (db : DB) (hash : String → String) (body : UserCreate)
    (avatar : Option String) (newId : Nat) (u : DBUser) (db2 : DB)
    (h : register_user db hash body avatar newId = (Except.ok u, db2)) :
    u.role = body.role ∧ u.confirmed = false ∧ u ∈ db2.users := by
  unfold register_user at h
  cases h1 : UserRepository.get_user_by_email db body.email with
  | some w => rw [h1] at h; simp at h
  | none =>
    cases h2 : UserRepository.get_user_by_username db body.username with
    | some w => rw [h1, h2] at h; simp at h
    | none =>
      rw [h1, h2] at h
      simp only [Prod.mk.injEq, Except.ok.injEq, UserRepository.create_user] at h
      obtain ⟨hu2, hdb2⟩ := h
      subst hu2
      subst hdb2
      exact ⟨rfl, rfl, by simp⟩

/-- Witness for C9: registering the fixture body that asks for the admin
role creates exactly the admin user record. -/
theorem c9_register_persists_role_witness :
    demoAdminUser.role = demoAdminBody.role ∧ demoAdminUser.confirmed = false ∧
    demoAdminUser ∈ (DB.mk (demoDB.users ++ [demoAdminUser]) demoDB.contacts).users :=
  c9_register_persists_role demoDB demoHash demoAdminBody none 3 demoAdminUser
    (DB.mk (demoDB.users ++ [demoAdminUser]) demoDB.contacts) (by decide)

/-- Claim C8 counterexample: the reset-password token issued by the
reset-request route is built by create_access_token with no TTL override
(src/api/auth.py line 158), so its time-to-live equals — and is not strictly
longer than — that of an access token issued at the same moment. -/
theorem c8_reset_token_ttl_counterexample :
    (reset_password_request demoDB demoHash "alice@mail.com" "npw" 1000).1 =
      Except.ok (CHECK_YOUR_EMAIL,
        some (create_access_token "alice@mail.com" (some (demoHash "npw")) 1000)) ∧
    tokenTTL (create_access_token "alice@mail.com" (some (demoHash "npw")) 1000) =
      tokenTTL (create_access_token "alice" none 1000) ∧
    ¬ (tokenTTL (create_access_token "alice" none 1000) <
       tokenTTL (create_access_token "alice@mail.com" (some (demoHash "npw")) 1000)) :=
  ⟨by decide, by decide, by decide⟩

/-- Claim C8 amended: email-confirmation tokens are issued with a strictly
longer TTL than access tokens, but reset-password tokens are issued through
the same access-token constructor with its default TTL, so a reset token
issued at time t is verifiable exactly as long after t as an access token
issued at the same moment (not strictly longer). -/
theorem c8_amended_ttl_classes (db : DB) (hash : String → String)
    (email password s e2 : String) (p : Option String) (now : Nat) (u : DBUser)
    (hu : UserRepository.get_user_by_email db email = some u) (hc : u.confirmed = true) :
    tokenTTL (create_access_token s p now) < tokenTTL (create_email_token e2 now) ∧
    (reset_password_request db hash email password now).1 =
      Except.ok (CHECK_YOUR_EMAIL,
        some (create_access_token u.email (some (hash password)) now)) ∧
    tokenTTL (create_access_token u.email (some (hash password)) now) =
      tokenTTL (create_access_token s p now) := by
  refine ⟨?_, ?_, ?_⟩
  · simp only [tokenTTL, create_access_token, create_email_token,
      ACCESS_TOKEN_TTL, EMAIL_TOKEN_TTL]
    omega
  · simp [reset_password_request, hu, hc]
  · simp [tokenTTL, create_access_token]

/-- Witness for the amended C8: concrete instantiation on the fixture. -/
theorem c8_amended_ttl_classes_witness :
    tokenTTL (create_access_token "alice" none 500) <
      tokenTTL (create_email_token "bob@mail.com" 500) ∧
    (reset_password_request demoDB demoHash "alice@mail.com" "npw" 500).1 =
      Except.ok (CHECK_YOUR_EMAIL,
        some (create_access_token demoAlice.email (some (demoHash "npw")) 500)) ∧
    tokenTTL (create_access_token demoAlice.email (some (demoHash "npw")) 500) =
      tokenTTL (create_access_token "alice" none 500) :=
  c8_amended_ttl_classes demoDB demoHash "alice@mail.com" "npw" "alice" "bob@mail.com"
    none 500 demoAlice (by decide) (by decide)
